import Mathlib

/-!
Verification of `spectractor/extractor/extractor.py`
(function `extract_spectrum_from_image`) against its specification.

The numeric arrays of the Python code are modelled over `ℚ` so that every
definition is executable. The helper modules of the repository that
`extractor.py` calls but whose source is not available
(`spectractor.extractor.background`, `spectractor.extractor.chromaticpsf`,
`spectractor.parameters`) are modelled from the spec where needed; each such
definition carries a doc comment saying so.
-/

namespace Spectractor

/-! ## Background refinement loop (extractor.py lines 196-208)

The background estimator `extract_spectrogram_background_sextractor` lives in
`spectractor/extractor/background.py`, which is not part of the available
source. Per the spec it is a deterministic computation; inside one call of
`extract_spectrum_from_image` the data, error and `ws` arguments passed to it
are fixed, and the only varying input across the retry iterations is the
process-wide box-size setting `parameters.PIXWIDTH_BOXSIZE`. We therefore
abstract one background fit as a function `pull : ℕ → ℚ × ℚ` mapping the box
size used by the fit to the pair
(`np.nanmean(bgd_res)`, `np.nanstd(bgd_res)`) of the pull residuals computed
on lines 198/208. -/

/-- The residual acceptance criterion of the `while` guard on line 201:
`np.abs(np.nanmean(bgd_res)) > 1 or np.nanstd(bgd_res) > 2`, on the
(mean, std) pair of the pull residuals. -/
def pullCriterionViolated (p : ℚ × ℚ) : Bool :=
  (1 < |p.1|) || (2 < p.2)

/-- The full guard of the `while` loop on line 201: the residual criterion is
violated and `parameters.PIXWIDTH_BOXSIZE >= 5`, where the current box size is
the one the latest background fit used. -/
def bgdLoopGuard (pull : ℕ → ℚ × ℚ) (b : ℕ) : Bool :=
  pullCriterionViolated (pull b) && decide (5 ≤ b)

/-- The box-size update of the loop body on line 202:
`parameters.PIXWIDTH_BOXSIZE = max(5, parameters.PIXWIDTH_BOXSIZE // 2)`
(Python `//` on nonnegative integers is `Nat.div`). -/
def halveBoxsize (b : ℕ) : ℕ := max 5 (b / 2)

/-- Fuel-indexed run of the `while` loop of lines 201-208, starting from the
box size `b` used by the initial fit on line 197. Returns `some` of the final
value of `parameters.PIXWIDTH_BOXSIZE` if the loop exits within `fuel`
iterations, and `none` otherwise. -/
def bgdLoop (pull : ℕ → ℚ × ℚ) : ℕ → ℕ → Option ℕ
  | 0, _ => none
  | fuel + 1, b =>
      if bgdLoopGuard pull b then bgdLoop pull fuel (halveBoxsize b)
      else some b

/-- The value of `parameters.PIXWIDTH_BOXSIZE` after `n` iterations of the
loop of lines 201-208 (the value stays put once the guard goes false, since
the loop has then exited). -/
def bgdTraj (pull : ℕ → ℚ × ℚ) (b0 : ℕ) : ℕ → ℕ
  | 0 => b0
  | n + 1 =>
      let b := bgdTraj pull b0 n
      if bgdLoopGuard pull b then halveBoxsize b else b

/-- The list of box sizes read by the successive background-fit calls of the
rotated-frame phase: the initial fit of line 197 reads the entry value, and
each loop iteration refits (line 207) after the halving of line 202. The list
is truncated after `fuel` refits. -/
def rotatedBgdFitTrace (pull : ℕ → ℚ × ℚ) : ℕ → ℕ → List ℕ
  | 0, b => [b]
  | fuel + 1, b =>
      if bgdLoopGuard pull b then b :: rotatedBgdFitTrace pull fuel (halveBoxsize b)
      else [b]

/-- The process-wide configuration module `spectractor.parameters`, reduced to
the single field the background loop reads and writes. -/
structure Parameters where
  PIXWIDTH_BOXSIZE : ℕ
deriving DecidableEq, Repr

/-- Effect of one `extract_spectrum_from_image` call on the process-wide
configuration state: the rotated-frame refinement loop mutates
`parameters.PIXWIDTH_BOXSIZE` in place (line 202) and nothing in the function
restores it, so the state after a terminating call carries the loop's final
box size. `none` if the loop does not exit within `fuel` iterations. -/
def extractCallParams (pull : ℕ → ℚ × ℚ) (fuel : ℕ) (g : Parameters) :
    Option Parameters :=
  (bgdLoop pull fuel g.PIXWIDTH_BOXSIZE).map fun b => { PIXWIDTH_BOXSIZE := b }

/-- The unrotated-frame background estimation (line 287) is a single call to
`extract_spectrogram_background_sextractor` with no surrounding loop: it reads
the current process-wide box size once and changes no configuration state.
The first component is the list of box sizes read by background-fit calls in
this phase. -/
def unrotatedBgdPhase (g : Parameters) : List ℕ × Parameters :=
  ([g.PIXWIDTH_BOXSIZE], g)

/-! ### Helper lemmas about the loop -/

lemma halveBoxsize_ge : 5 ≤ halveBoxsize b := le_max_left _ _

lemma halveBoxsize_le (h : 5 ≤ b) : halveBoxsize b ≤ b :=
  max_le h (Nat.div_le_self b 2)

lemma halveBoxsize_lt (h : 6 ≤ b) : halveBoxsize b < b := by
  apply max_lt (by omega)
  omega

lemma bgdLoopGuard_ge (h : bgdLoopGuard pull b = true) : 5 ≤ b := by
  have := (Bool.and_eq_true _ _).mp h
  exact of_decide_eq_true this.2

lemma bgdLoop_le (pull : ℕ → ℚ × ℚ) :
    ∀ fuel b bf, bgdLoop pull fuel b = some bf → bf ≤ b := by
  intro fuel
  induction fuel with
  | zero => intro b bf h; simp [bgdLoop] at h
  | succ n ih =>
      intro b bf h
      rw [bgdLoop] at h
      by_cases hg : bgdLoopGuard pull b = true
      · rw [if_pos hg] at h
        exact le_trans (ih _ _ h) (halveBoxsize_le (bgdLoopGuard_ge hg))
      · rw [if_neg hg] at h
        simp at h
        omega

/-- A pull-residual profile on which the acceptance criterion is violated at
every box size: the background fit always yields pull residuals with mean 0
and standard deviation 3 (so `np.nanstd(bgd_res) > 2` holds forever). -/
def pullAlwaysBad : ℕ → ℚ × ℚ := fun _ => (0, 3)

lemma pullCriterionViolated_pullAlwaysBad :
    pullCriterionViolated (pullAlwaysBad b) = true := by
  simp [pullCriterionViolated, pullAlwaysBad]
  norm_num

lemma bgdLoopGuard_pullAlwaysBad (h : 5 ≤ b) :
    bgdLoopGuard pullAlwaysBad b = true := by
  rw [bgdLoopGuard, pullCriterionViolated_pullAlwaysBad, Bool.true_and]
  exact decide_eq_true h

lemma bgdLoop_pullAlwaysBad_none :
    ∀ fuel b, 5 ≤ b → bgdLoop pullAlwaysBad fuel b = none := by
  intro fuel
  induction fuel with
  | zero => intro b _; rfl
  | succ n ih =>
      intro b hb
      rw [bgdLoop, if_pos (bgdLoopGuard_pullAlwaysBad hb)]
      exact ih _ halveBoxsize_ge

/-! ## Claim theorems for the loop cluster -/

/-- C1: the claim states that the background-refinement loop always
terminates. It does not: with the pull criterion violated at every box size
(here: pull standard deviation 3 at every box size) and starting box size 20,
the loop guard `(criterion violated) and PIXWIDTH_BOXSIZE >= 5` stays true
forever, because the update `max(5, b // 2)` keeps the box size at the floor 5
where the guard `5 >= 5` still holds, and the refit at an unchanged box size
reproduces the same residuals. No amount of fuel makes the loop exit. -/
theorem C1_bgd_loop_nonterminating :
    ∀ fuel, bgdLoop pullAlwaysBad fuel 20 = none := fun fuel =>
  bgdLoop_pullAlwaysBad_none fuel 20 (by omega)

/-- C3: starting from a box size of at least 5, after any number of loop
iterations the box size is still at least 5, it never increases from one
iteration to the next, and it is updated to `max(5, b // 2)` exactly when the
pull residuals of the latest fit violate the acceptance criterion. -/
theorem C3_boxsize_invariants (pull : ℕ → ℚ × ℚ) (b0 : ℕ) (h5 : 5 ≤ b0)
    (n : ℕ) :
    5 ≤ bgdTraj pull b0 n ∧
    bgdTraj pull b0 (n + 1) ≤ bgdTraj pull b0 n ∧
    bgdTraj pull b0 (n + 1) =
      (if pullCriterionViolated (pull (bgdTraj pull b0 n)) then
        halveBoxsize (bgdTraj pull b0 n)
      else bgdTraj pull b0 n) := by
  have hinv : ∀ m, 5 ≤ bgdTraj pull b0 m := by
    intro m
    induction m with
    | zero => exact h5
    | succ k ih =>
        rw [bgdTraj]
        by_cases hg : bgdLoopGuard pull (bgdTraj pull b0 k) = true
        · rw [if_pos hg]
          exact halveBoxsize_ge
        · rw [if_neg hg]
          exact ih
  refine ⟨hinv n, ?_, ?_⟩
  · rw [bgdTraj]
    by_cases hg : bgdLoopGuard pull (bgdTraj pull b0 n) = true
    · rw [if_pos hg]
      exact halveBoxsize_le (hinv n)
    · rw [if_neg hg]
  · rw [bgdTraj]
    by_cases hv : pullCriterionViolated (pull (bgdTraj pull b0 n)) = true
    · have hg : bgdLoopGuard pull (bgdTraj pull b0 n) = true := by
        rw [bgdLoopGuard, hv, Bool.true_and]
        exact decide_eq_true (hinv n)
      rw [if_pos hg, if_pos hv]
    · have hg : ¬ bgdLoopGuard pull (bgdTraj pull b0 n) = true := by
        rw [bgdLoopGuard, eq_false_of_ne_true hv, Bool.false_and]
        exact Bool.false_ne_true
      rw [if_neg hg, if_neg hv]

/-- Witness for C3 at a concrete pull profile and box size. -/
theorem C3_boxsize_invariants_witness :
    5 ≤ bgdTraj (fun _ => ((0 : ℚ), (3 : ℚ))) 20 1 ∧
    bgdTraj (fun _ => ((0 : ℚ), (3 : ℚ))) 20 2 ≤
      bgdTraj (fun _ => ((0 : ℚ), (3 : ℚ))) 20 1 ∧
    bgdTraj (fun _ => ((0 : ℚ), (3 : ℚ))) 20 2 =
      (if pullCriterionViolated ((fun _ => ((0 : ℚ), (3 : ℚ)))
          (bgdTraj (fun _ => ((0 : ℚ), (3 : ℚ))) 20 1)) then
        halveBoxsize (bgdTraj (fun _ => ((0 : ℚ), (3 : ℚ))) 20 1)
      else bgdTraj (fun _ => ((0 : ℚ), (3 : ℚ))) 20 1) :=
  C3_boxsize_invariants (fun _ => ((0 : ℚ), (3 : ℚ))) 20 (by omega) 1

/-- A pull-residual profile whose acceptance criterion is violated at box
sizes of 20 and above (standard deviation 3) and satisfied below (standard
deviation 0): the loop halves once and exits. -/
def pullOnceBad : ℕ → ℚ × ℚ := fun b => if 20 ≤ b then (0, 3) else (0, 0)

/-- C2 counterexample: the claim states that a call leaves the process-wide
box-size setting unchanged. With starting box size 20 and residuals that
force one halving, the call returns with `parameters.PIXWIDTH_BOXSIZE = 10`,
a changed process-wide state, because line 202 mutates the module-level
setting in place and nothing restores it. -/
theorem C2_counterexample :
    extractCallParams pullOnceBad 4 ⟨20⟩ = some ⟨10⟩ ∧
    (⟨10⟩ : Parameters) ≠ (⟨20⟩ : Parameters) := by
  refine ⟨rfl, ?_⟩
  decide

/-- C2 amended: the retry loop mutates the process-wide setting
`parameters.PIXWIDTH_BOXSIZE` in place; whenever the starting box size is at
least 6 and the initial fit violates the acceptance criterion, a terminating
call returns with the setting strictly reduced, so a second extraction call
observes a smaller starting box size than the first. -/
theorem C2_boxsize_setting_mutated (pull : ℕ → ℚ × ℚ) (fuel : ℕ)
    (g g' : Parameters) (h6 : 6 ≤ g.PIXWIDTH_BOXSIZE)
    (hv : pullCriterionViolated (pull g.PIXWIDTH_BOXSIZE) = true)
    (hrun : extractCallParams pull fuel g = some g') :
    g'.PIXWIDTH_BOXSIZE < g.PIXWIDTH_BOXSIZE := by
  rw [extractCallParams] at hrun
  obtain ⟨bf, hbf, hgf⟩ := Option.map_eq_some'.mp hrun
  have hg' : g'.PIXWIDTH_BOXSIZE = bf := by rw [← hgf]
  rw [hg']
  have hguard : bgdLoopGuard pull g.PIXWIDTH_BOXSIZE = true := by
    rw [bgdLoopGuard, hv, Bool.true_and]
    exact decide_eq_true (by omega)
  cases fuel with
  | zero => exact absurd hbf (by rw [bgdLoop]; exact Option.noConfusion)
  | succ n =>
      rw [bgdLoop, if_pos hguard] at hbf
      exact lt_of_le_of_lt (bgdLoop_le pull n _ bf hbf) (halveBoxsize_lt h6)

/-- Witness for C2's amended theorem at the concrete one-halving profile. -/
theorem C2_boxsize_setting_mutated_witness :
    6 ≤ (⟨20⟩ : Parameters).PIXWIDTH_BOXSIZE ∧
    pullCriterionViolated (pullOnceBad (⟨20⟩ : Parameters).PIXWIDTH_BOXSIZE) = true ∧
    extractCallParams pullOnceBad 4 ⟨20⟩ = some ⟨10⟩ ∧
    (⟨10⟩ : Parameters).PIXWIDTH_BOXSIZE < (⟨20⟩ : Parameters).PIXWIDTH_BOXSIZE :=
  ⟨by decide, by decide, rfl,
    C2_boxsize_setting_mutated pullOnceBad 4 ⟨20⟩ ⟨10⟩ (by decide) (by decide) rfl⟩

/-- A pull-residual profile whose acceptance criterion is violated at every
box size through the mean: `abs(nanmean) = 2 > 1`. -/
def pullMeanBad : ℕ → ℚ × ℚ := fun _ => (2, 0)

/-- C5 counterexample: the claim states that the unrotated-frame background
estimation applies the same refinement loop as the rotated-frame one, i.e.
refits with a halved box size whenever the criterion is violated. With the
criterion violated at box size 20, the rotated-frame phase performs a second
fit at the halved size 10, but the unrotated-frame phase (line 287) performs
exactly one fit at the unchanged box size 20: there is no loop around it. -/
theorem C5_counterexample :
    pullCriterionViolated (pullMeanBad 20) = true ∧
    (unrotatedBgdPhase ⟨20⟩).1 = [20] ∧
    rotatedBgdFitTrace pullMeanBad 1 20 = [20, 10] := by
  refine ⟨by decide, rfl, ?_⟩
  decide

/-- C5 amended: the unrotated-frame background estimation is a single,
non-iterative call to the estimator at the current process-wide box size
(possibly already reduced by the rotated-frame loop); it performs exactly one
fit and changes no configuration state. Only the rotated-frame estimation is
iterative. -/
theorem C5_unrotated_single_fit (g : Parameters) :
    (unrotatedBgdPhase g).1.length = 1 ∧
    (unrotatedBgdPhase g).1 = [g.PIXWIDTH_BOXSIZE] ∧
    (unrotatedBgdPhase g).2 = g :=
  ⟨rfl, rfl, rfl⟩

/-! ## Extraction-mode check (extractor.py lines 159-170) -/

/-- Pixel/error-array reads performed at the start of
`extract_spectrum_from_image`: `np.copy(image.data_rotated)` on line 169 and
`np.copy(image.stat_errors_rotated)` on line 170. -/
inductive ArrayRead
  | dataRotated
  | statErrorsRotated
deriving DecidableEq, Repr

/-- Errors raised by `extract_spectrum_from_image` before any computation:
the unsupported-extraction-mode error of line 160 (a `NotImplementedError` in
the Python source, classified as the configuration error of the spec's error
taxonomy). -/
inductive ExtractError
  | configurationError (msg : String)
deriving DecidableEq, Repr

/-- The prologue of `extract_spectrum_from_image` (lines 159-170): first the
check of `parameters.PSF_EXTRACTION_MODE` on line 159, which raises before
anything else runs; only on the non-raising path are the pixel and error
arrays read. Returns the list of array reads performed together with the
outcome. -/
def extractPrologue (mode : String) : List ArrayRead × Except ExtractError Unit :=
  if mode ≠ "PSF_1D" ∧ mode ≠ "PSF_2D" then
    ([], Except.error (ExtractError.configurationError
      ("PSF_EXTRACTION_MODE must PSF_1D or PSF_2D. Found " ++ mode ++ ".")))
  else
    ([ArrayRead.dataRotated, ArrayRead.statErrorsRotated], Except.ok ())

/-- Does the outcome carry the configuration error of line 160? -/
def isConfigError : Except ExtractError Unit → Bool
  | Except.error (ExtractError.configurationError _) => true
  | Except.ok _ => false

/-- C4: the prologue raises the configuration error precisely for extraction
modes outside the supported pair PSF_1D / PSF_2D, and it raises precisely
when no pixel or error array has been read — i.e. the error comes before any
array access, and supported modes pass the check without error. -/
theorem C4_mode_check_raises_before_reads (mode : String) :
    (isConfigError (extractPrologue mode).2 = true ↔
      ¬(mode = "PSF_1D" ∨ mode = "PSF_2D")) ∧
    (isConfigError (extractPrologue mode).2 = true ↔
      (extractPrologue mode).1 = []) := by
  by_cases h : mode ≠ "PSF_1D" ∧ mode ≠ "PSF_2D"
  · rw [extractPrologue, if_pos h]
    constructor
    · simp [isConfigError]
      exact h
    · simp [isConfigError]
  · rw [extractPrologue, if_neg h]
    constructor
    · simp [isConfigError]
      tauto
    · simp [isConfigError]

/-! ## Optimal-regularization header field (extractor.py lines 294-335) -/

/-- The value written into the field PSF_REG of `spectrum.header` on line 335:
`opt_reg` is initialized to `-1` on line 294 and reassigned to the solver's
`s.opt_reg` inside the `PSF_2D` branch on line 334. -/
def psfRegHeaderValue (mode : String) (solverOptReg : ℚ) : ℚ :=
  let opt_reg : ℚ := -1
  if mode = "PSF_2D" then solverOptReg else opt_reg

/-- The output header, reduced to the field the claim concerns; `PSF_REG` is
absent before line 335 runs. -/
structure SpectrumHeader where
  PSF_REG : Option ℚ
deriving DecidableEq, Repr

/-- Line 335 always executes on a successful run (it is outside the `PSF_2D`
branch) and stores `opt_reg` into the header. -/
def finalizeHeader (mode : String) (solverOptReg : ℚ) : SpectrumHeader :=
  { PSF_REG := some (psfRegHeaderValue mode solverOptReg) }

/-- C8: on every successful run the header field `PSF_REG` is set; in
two-dimensional mode it equals the solver's selected optimal regularization
value, and in one-dimensional mode it equals the sentinel `-1`. -/
theorem C8_psf_reg_header (solverOptReg : ℚ) :
    (∀ mode, (finalizeHeader mode solverOptReg).PSF_REG.isSome = true) ∧
    (finalizeHeader "PSF_2D" solverOptReg).PSF_REG = some solverOptReg ∧
    (finalizeHeader "PSF_1D" solverOptReg).PSF_REG = some (-1) :=
  ⟨fun _ => rfl, rfl, rfl⟩

/-! ## Meaning of spectrum.pixels (extractor.py lines 222, 303, 329) -/

/-- A numpy array of pixel positions, distinguishing the integer dtype of
`np.arange(xmin, xmax, 1).astype(int)` from the floating dtype of the table's
`Dx` column. -/
inductive PixelArray
  | intArr (v : List ℤ)
  | floatArr (v : List ℚ)
deriving DecidableEq, Repr

/-- `np.arange(a, b, 1)` over integers, as an integer list. -/
def arangeInt (a b : ℤ) : List ℤ :=
  (List.range (b - a).toNat).map fun i : ℕ => a + (i : ℤ)

/-- The `Dx` column filled on line 303 for the 2-D pass:
`np.arange(xmin, xmax, 1) - image.target_pixcoords[0]`, a floating-point
offset relative to the target position (the target x-coordinate is a float). -/
def tableDxColumn (xmin xmax : ℤ) (x0 : ℚ) : List ℚ :=
  (arangeInt xmin xmax).map fun i : ℤ => (i : ℚ) - x0

/-- Final value of `spectrum.pixels`: line 222 sets it to
`np.arange(xmin, xmax, 1).astype(int)` on the rotated-frame crop window; in
`PSF_2D` mode line 329 overwrites it with a copy of the Dx column of `s.table` of the
unrotated-frame table. -/
def spectrumPixelsFinal (mode : String) (xmin1 xmax1 xmin2 xmax2 : ℤ)
    (x0 : ℚ) : PixelArray :=
  let pixels := PixelArray.intArr (arangeInt xmin1 xmax1)
  if mode = "PSF_2D" then PixelArray.floatArr (tableDxColumn xmin2 xmax2 x0)
  else pixels

/-- C10: in one-dimensional mode `spectrum.pixels` is the integer sequence of
absolute image column indices `arange(xmin, xmax)`; in two-dimensional mode
it is overwritten with the table's `Dx` column, whose entries are
floating-point offsets `column_index - target_x` relative to the target
position, not absolute column indices. -/
theorem C10_pixels_semantics (xmin1 xmax1 xmin2 xmax2 : ℤ) (x0 : ℚ) (k : ℕ)
    (hk : k < (tableDxColumn xmin2 xmax2 x0).length) :
    spectrumPixelsFinal "PSF_1D" xmin1 xmax1 xmin2 xmax2 x0 =
      PixelArray.intArr (arangeInt xmin1 xmax1) ∧
    spectrumPixelsFinal "PSF_2D" xmin1 xmax1 xmin2 xmax2 x0 =
      PixelArray.floatArr (tableDxColumn xmin2 xmax2 x0) ∧
    (tableDxColumn xmin2 xmax2 x0).get ⟨k, hk⟩ = ((xmin2 + k : ℤ) : ℚ) - x0 := by
  refine ⟨rfl, rfl, ?_⟩
  simp only [tableDxColumn, arangeInt, List.get_eq_getElem, List.getElem_map,
    List.getElem_range]

/-- Witness for C10 at a concrete window and target position. -/
theorem C10_pixels_semantics_witness :
    1 < (tableDxColumn 3 6 (1/2)).length ∧
    (spectrumPixelsFinal "PSF_1D" 0 2 3 6 (1/2) =
      PixelArray.intArr (arangeInt 0 2) ∧
    spectrumPixelsFinal "PSF_2D" 0 2 3 6 (1/2) =
      PixelArray.floatArr (tableDxColumn 3 6 (1/2)) ∧
    (tableDxColumn 3 6 (1/2)).get ⟨1, by decide⟩ = ((3 + 1 : ℤ) : ℚ) - 1/2) :=
  ⟨by decide, C10_pixels_semantics 0 2 3 6 (1/2) 1 (by decide)⟩

/-! ## Wavelength-bounded crop window (extractor.py lines 169, 180-188) -/

/-- `np.argmin` of `f` over the indices `0 .. n-1`: the first index attaining
the minimum (numpy breaks ties toward the smallest index); `0` for an empty
range, where numpy raises instead. -/
def npArgmin (f : ℕ → ℚ) : ℕ → ℕ
  | 0 => 0
  | n + 1 =>
      let a := npArgmin f n
      if f n < f a then n else a

/-- Number of columns of the data array after the slice
`data[:, 0:right_edge]` on line 169: Python slicing clips the stop index to
the axis size. -/
def croppedWidth (origW re : ℕ) : ℕ := min origW re

/-- Lines 180-183. `lam i` models
`image.disperser.grating_pixel_to_lambda(i - target_x, x0)`, the disperser
mapping evaluated at column `i`, consumed read-only. The pair is
`(xmin, xmax)`: `xmin = argmin |lam - LAMBDA_MIN|` and
`xmax = min(right_edge, argmin |lam - LAMBDA_MAX|)`. -/
def wavelengthWindow (lam : ℕ → ℚ) (Nx re : ℕ) (lmin lmax : ℚ) : ℕ × ℕ :=
  (npArgmin (fun i => |lam i - lmin|) Nx,
   min re (npArgmin (fun i => |lam i - lmax|) Nx))

/-- Length of the Python slice `a[lo:hi]` along an axis of size `n`, for
nonnegative slice bounds: both bounds are clipped to the axis size. -/
def pySliceLen (lo hi n : ℕ) : ℕ := min hi n - min lo n

/-- Modelled from the spec: the `ChromaticPSF` constructor of
`spectractor/extractor/chromaticpsf.py`, which is not under the available
source. Per the spec, the table has "one row per along-dispersion pixel
column" with "Invariant: row count == number of columns (Nx) in the active
crop", so `ChromaticPSF(psf, Nx=Nx, Ny=Ny, x0=.., y0=.., deg=.., saturation=..)`
builds a table with exactly `Nx` rows. -/
structure ChromaticPSF where
  Nx : ℕ
  Ny : ℕ
  x0 : ℚ
  y0 : ℚ
  deg : ℕ
  saturation : ℚ
  tableRows : ℕ
deriving DecidableEq, Repr

/-- Modelled from the spec: construction of a `ChromaticPSF` as on lines
216-217 and 300-301. -/
def mkChromaticPSF (Nx Ny : ℕ) (x0 y0 : ℚ) (deg : ℕ) (saturation : ℚ) :
    ChromaticPSF :=
  ⟨Nx, Ny, x0, y0, deg, saturation, Nx⟩

lemma npArgmin_lt (f : ℕ → ℚ) : ∀ n, 0 < n → npArgmin f n < n := by
  intro n
  induction n with
  | zero => omega
  | succ m ih =>
      intro _
      rw [npArgmin]
      by_cases h : f m < f (npArgmin f m)
      · rw [if_pos h]; omega
      · rw [if_neg h]
        rcases Nat.eq_zero_or_pos m with hm | hm
        · subst hm
          have : npArgmin f 0 = 0 := rfl
          omega
        · have := ih hm
          omega

lemma npArgmin_min (f : ℕ → ℚ) : ∀ n, ∀ j < n, f (npArgmin f n) ≤ f j := by
  intro n
  induction n with
  | zero => intro j hj; omega
  | succ m ih =>
      intro j hj
      rw [npArgmin]
      by_cases h : f m < f (npArgmin f m)
      · rw [if_pos h]
        rcases Nat.lt_succ_iff_lt_or_eq.mp hj with hj' | hj'
        · exact le_trans (le_of_lt h) (ih j hj')
        · rw [hj']
      · rw [if_neg h]
        rcases Nat.lt_succ_iff_lt_or_eq.mp hj with hj' | hj'
        · exact ih j hj'
        · rw [hj']
          exact le_of_not_lt h

/-- C7: on a nonempty sliced image, the along-dispersion window of lines
180-183 inverts the disperser mapping: `xmin` is a pixel index whose mapped
wavelength is closest to the configured minimum bound, `xmax` is
`min(right_edge, j)` for a pixel index `j` whose mapped wavelength is closest
to the configured maximum bound, and both resulting edges are at most
`right_edge`. -/
theorem C7_window_inverts_disperser (lam : ℕ → ℚ) (origW re : ℕ)
    (lmin lmax : ℚ) (hpos : 0 < croppedWidth origW re) :
    (∀ j < croppedWidth origW re,
      |lam (wavelengthWindow lam (croppedWidth origW re) re lmin lmax).1 - lmin|
        ≤ |lam j - lmin|) ∧
    (∃ jmax < croppedWidth origW re,
      (∀ j < croppedWidth origW re, |lam jmax - lmax| ≤ |lam j - lmax|) ∧
      (wavelengthWindow lam (croppedWidth origW re) re lmin lmax).2 =
        min re jmax) ∧
    (wavelengthWindow lam (croppedWidth origW re) re lmin lmax).1 ≤ re ∧
    (wavelengthWindow lam (croppedWidth origW re) re lmin lmax).2 ≤ re := by
  refine ⟨?_, ?_, ?_, ?_⟩
  · intro j hj
    exact npArgmin_min (fun i => |lam i - lmin|) _ j hj
  · refine ⟨npArgmin (fun i => |lam i - lmax|) (croppedWidth origW re), ?_, ?_, rfl⟩
    · exact npArgmin_lt _ _ hpos
    · intro j hj
      exact npArgmin_min (fun i => |lam i - lmax|) _ j hj
  · have h1 : (wavelengthWindow lam (croppedWidth origW re) re lmin lmax).1 <
        croppedWidth origW re := npArgmin_lt _ _ hpos
    have h2 : croppedWidth origW re ≤ re := min_le_right _ _
    omega
  · exact min_le_left _ _

/-- Witness for C7 on a concrete disperser mapping. -/
theorem C7_window_inverts_disperser_witness :
    0 < croppedWidth 10 5 ∧
    ((∀ j < croppedWidth 10 5,
      |(fun i : ℕ => (i : ℚ)) (wavelengthWindow (fun i : ℕ => (i : ℚ))
          (croppedWidth 10 5) 5 2 100).1 - 2|
        ≤ |(fun i : ℕ => (i : ℚ)) j - 2|) ∧
    (∃ jmax < croppedWidth 10 5,
      (∀ j < croppedWidth 10 5,
        |(fun i : ℕ => (i : ℚ)) jmax - 100| ≤ |(fun i : ℕ => (i : ℚ)) j - 100|) ∧
      (wavelengthWindow (fun i : ℕ => (i : ℚ)) (croppedWidth 10 5) 5 2 100).2 =
        min 5 jmax) ∧
    (wavelengthWindow (fun i : ℕ => (i : ℚ)) (croppedWidth 10 5) 5 2 100).1 ≤ 5 ∧
    (wavelengthWindow (fun i : ℕ => (i : ℚ)) (croppedWidth 10 5) 5 2 100).2 ≤ 5) :=
  ⟨by decide, C7_window_inverts_disperser (fun i : ℕ => (i : ℚ)) 10 5 2 100 (by decide)⟩

/-- C9: for any lateral window pair with `w0 < w1`, when the along-dispersion
window of lines 180-183 is well ordered the cropped spectrogram of lines
186-188 has exactly `xmax - xmin` columns, and the `ChromaticPSF` table built
on lines 216-217 for that crop has exactly that many rows. -/
theorem C9_crop_columns_eq_table_rows (lam : ℕ → ℚ) (origW re : ℕ)
    (lmin lmax : ℚ) (w0 w1 : ℕ) (_h01 : w0 < w1) (Ny : ℕ) (x0 y0 : ℚ)
    (deg : ℕ) (sat : ℚ) (hpos : 0 < croppedWidth origW re)
    (hle : (wavelengthWindow lam (croppedWidth origW re) re lmin lmax).1 ≤
      (wavelengthWindow lam (croppedWidth origW re) re lmin lmax).2) :
    pySliceLen (wavelengthWindow lam (croppedWidth origW re) re lmin lmax).1
        (wavelengthWindow lam (croppedWidth origW re) re lmin lmax).2
        (croppedWidth origW re) =
      (wavelengthWindow lam (croppedWidth origW re) re lmin lmax).2 -
        (wavelengthWindow lam (croppedWidth origW re) re lmin lmax).1 ∧
    (mkChromaticPSF
        (pySliceLen (wavelengthWindow lam (croppedWidth origW re) re lmin lmax).1
          (wavelengthWindow lam (croppedWidth origW re) re lmin lmax).2
          (croppedWidth origW re))
        Ny x0 y0 deg sat).tableRows =
      pySliceLen (wavelengthWindow lam (croppedWidth origW re) re lmin lmax).1
        (wavelengthWindow lam (croppedWidth origW re) re lmin lmax).2
        (croppedWidth origW re) := by
  have hxmax : (wavelengthWindow lam (croppedWidth origW re) re lmin lmax).2 <
      croppedWidth origW re := by
    have hj : npArgmin (fun i => |lam i - lmax|) (croppedWidth origW re) <
        croppedWidth origW re := npArgmin_lt _ _ hpos
    have : (wavelengthWindow lam (croppedWidth origW re) re lmin lmax).2 ≤
        npArgmin (fun i => |lam i - lmax|) (croppedWidth origW re) :=
      min_le_right _ _
    omega
  constructor
  · rw [pySliceLen]
    omega
  · rfl

/-- Witness for C9 on a concrete disperser mapping and window pair. -/
theorem C9_crop_columns_eq_table_rows_witness :
    1 < 2 ∧ 0 < croppedWidth 10 5 ∧
    (wavelengthWindow (fun i : ℕ => (i : ℚ)) (croppedWidth 10 5) 5 2 100).1 ≤
      (wavelengthWindow (fun i : ℕ => (i : ℚ)) (croppedWidth 10 5) 5 2 100).2 ∧
    (pySliceLen (wavelengthWindow (fun i : ℕ => (i : ℚ)) (croppedWidth 10 5) 5 2 100).1
        (wavelengthWindow (fun i : ℕ => (i : ℚ)) (croppedWidth 10 5) 5 2 100).2
        (croppedWidth 10 5) =
      (wavelengthWindow (fun i : ℕ => (i : ℚ)) (croppedWidth 10 5) 5 2 100).2 -
        (wavelengthWindow (fun i : ℕ => (i : ℚ)) (croppedWidth 10 5) 5 2 100).1 ∧
    (mkChromaticPSF
        (pySliceLen (wavelengthWindow (fun i : ℕ => (i : ℚ)) (croppedWidth 10 5) 5 2 100).1
          (wavelengthWindow (fun i : ℕ => (i : ℚ)) (croppedWidth 10 5) 5 2 100).2
          (croppedWidth 10 5))
        60 3 4 2 100).tableRows =
      pySliceLen (wavelengthWindow (fun i : ℕ => (i : ℚ)) (croppedWidth 10 5) 5 2 100).1
        (wavelengthWindow (fun i : ℕ => (i : ℚ)) (croppedWidth 10 5) 5 2 100).2
        (croppedWidth 10 5)) :=
  ⟨by decide, by decide,
    by norm_num [wavelengthWindow, npArgmin, croppedWidth],
    C9_crop_columns_eq_table_rows (fun i : ℕ => (i : ℚ)) 10 5 2 100 1 2
      (by decide) 60 3 4 2 100 (by decide)
      (by norm_num [wavelengthWindow, npArgmin, croppedWidth])⟩

/-! ## Derotation of the parameter table (extractor.py lines 241-277) -/

/-- The columns of the ChromaticPSF parameter table touched by the
derotation step, each as a function of the row index (one row per
along-dispersion column). -/
structure PSFTable where
  amplitude : ℕ → ℚ
  x_c : ℕ → ℚ
  y_c : ℕ → ℚ
  Dx : ℕ → ℚ
  Dy : ℕ → ℚ
  Dy_disp_axis : ℕ → ℚ

/-- Modelled from the spec: `ChromaticPSF.rotate_table` of
`spectractor/extractor/chromaticpsf.py` (not under the available source),
called on line 251 as `s.rotate_table(-image.rotation_angle)`. Per the spec
it converts "offsets between the rotated working frame and the final
unrotated frame by applying the inverse rotation angle to the table's offset
columns (Dx, Dy)". It is abstracted over the cosine and sine of the applied
angle, so every rotation angle is covered. -/
def rotate_table (c s : ℚ) (t : PSFTable) : PSFTable :=
  { t with
    Dx := fun i => c * t.Dx i - s * t.Dy i,
    Dy := fun i => s * t.Dx i + c * t.Dy i,
    Dy_disp_axis := fun i => s * t.Dx i + c * t.Dy_disp_axis i }

/-- Lines 271-277: after the unrotated-frame crop window is known, the
spectrogram-local target position is
`(target_x - xmin, target_y - ymin)` and the center columns are recomputed
from the derotated offsets: `y_c = Dy + target_y_spectrogram` and
`x_c = Dx + target_x_spectrogram`. -/
def updateCentersAfterRotation (t : PSFTable) (x0 xmin y0 ymin : ℚ) :
    PSFTable :=
  { t with
    y_c := fun i => t.Dy i + (y0 - ymin),
    x_c := fun i => t.Dx i + (x0 - xmin) }

/-- C6: after derotating the table (any rotation angle, i.e. any cosine and
sine values) and recomputing the unrotated-frame crop window, every table row
satisfies center = target position + offset in the spectrogram-local frame:
`x_c = Dx + (target_x - xmin)` and `y_c = Dy + (target_y - ymin)`. -/
theorem C6_center_eq_target_plus_offset (c s : ℚ) (t : PSFTable)
    (x0 xmin y0 ymin : ℚ) (i : ℕ) :
    (updateCentersAfterRotation (rotate_table c s t) x0 xmin y0 ymin).x_c i =
      (updateCentersAfterRotation (rotate_table c s t) x0 xmin y0 ymin).Dx i +
        (x0 - xmin) ∧
    (updateCentersAfterRotation (rotate_table c s t) x0 xmin y0 ymin).y_c i =
      (updateCentersAfterRotation (rotate_table c s t) x0 xmin y0 ymin).Dy i +
        (y0 - ymin) :=
  ⟨rfl, rfl⟩

end Spectractor
